import Mathlib

/-!
Verification of the google-cloud-gui core: the background-worker task model
(src/worker.py, src/cloud.py), the SSH read loop and its terminal-emulation
pipeline, and the caller-side argument construction (src/window.py,
src/page.py).  External collaborators (the pyte screen/stream pair and the
extended-operation handle of the cloud library) are modelled from the
specification, which treats them as interfaces; everything else is a direct
shallow embedding of the Python source.
-/

/- ## Terminal emulator

Modelled from the spec: the TerminalEmulator component (spec 4.5).  The
repository delegates terminal emulation to the external pyte Screen/Stream
pair (src/worker.py lines 183-184), whose code is not part of the repository;
the spec re-specifies it as a state machine with states Normal,
EscapeSequenceStart and EscapeSequenceAccumulating over a fixed rows-by-columns
character grid with a clamped cursor. -/

/-- Parser mode of the escape-sequence interpreter (spec 4.5). -/
inductive ParseMode where
  | normal : ParseMode
  | escStart : ParseMode
  | escBody : List Char → ParseMode
  deriving DecidableEq, Repr

/-- Modelled from the spec: the terminal grid plus cursor and parser state
(spec 3, Terminal Grid; spec 4.5). -/
structure EmuState where
  width : Nat
  height : Nat
  grid : List (List Char)
  curRow : Nat
  curCol : Nat
  mode : ParseMode
  deriving DecidableEq, Repr

/-- One all-blank grid row. -/
def blankRow (w : Nat) : List Char := List.replicate w ' '

/-- Modelled from the spec: a fresh emulator with an all-blank grid, cursor at
the origin and the parser in Normal mode (Screen(columns, rows) at
src/worker.py line 183 has columns = width, rows = height). -/
def emuInit (w h : Nat) : EmuState :=
  ⟨w, h, List.replicate h (blankRow w), 0, 0, ParseMode.normal⟩

/-- Write a character into the grid at the given row and column. -/
def writeCell (g : List (List Char)) (r c : Nat) (ch : Char) : List (List Char) :=
  g.set r ((g.getD r []).set c ch)

/-- Move the cursor down one row, scrolling the grid up by one row (oldest row
discarded) when the cursor is already on the last row (spec 4.5). -/
def cursorDown (st : EmuState) : EmuState :=
  if st.curRow + 1 < st.height then { st with curRow := st.curRow + 1 }
  else { st with grid := st.grid.drop 1 ++ [blankRow st.width] }

/-- Write a printable character at the cursor and advance, wrapping to the next
row at column end (spec 4.5). -/
def putChar (st : EmuState) (ch : Char) : EmuState :=
  if st.curCol + 1 < st.width then
    { st with grid := writeCell st.grid st.curRow st.curCol ch, curCol := st.curCol + 1 }
  else
    { cursorDown { st with grid := writeCell st.grid st.curRow st.curCol ch } with curCol := 0 }

/-- Numeric value of a decimal digit, if the character is one. -/
def digitVal (c : Char) : Option Nat :=
  if '0' ≤ c ∧ c ≤ '9' then some (c.toNat - '0'.toNat) else none

/-- Decimal reading of a parameter body, ignoring non-digits. -/
def parseNat (s : List Char) : Nat :=
  s.foldl (fun n c => match digitVal c with | some d => n * 10 + d | none => n) 0

/-- Split an accumulated control-sequence body at the semicolons. -/
def splitSemi : List Char → List (List Char)
  | [] => [[]]
  | c :: rest =>
    if c = ';' then [] :: splitSemi rest
    else
      match splitSemi rest with
      | g :: gs => (c :: g) :: gs
      | [] => [[c]]

/-- The numeric parameters of an accumulated control-sequence body. -/
def seqParams (acc : List Char) : List Nat := (splitSemi acc).map parseNat

/-- Erase the current row from the cursor column to the end of the line. -/
def eraseLineRight (st : EmuState) : EmuState :=
  let row := st.grid.getD st.curRow (blankRow st.width)
  let row2 := row.take st.curCol ++ List.replicate (st.width - st.curCol) ' '
  { st with grid := st.grid.set st.curRow row2 }

/-- Modelled from the spec: effect of a terminated control sequence — cursor
positioning, erase-in-display, erase-in-line for the subset needed for shell
output; unrecognized sequences are discarded harmlessly (spec 4.5). -/
def csiApply (st : EmuState) (acc : List Char) (fin : Char) : EmuState :=
  if fin = 'H' ∨ fin = 'f' then
    let p1 := max ((seqParams acc).getD 0 1) 1
    let p2 := max ((seqParams acc).getD 1 1) 1
    { st with curRow := min (p1 - 1) (st.height - 1),
              curCol := min (p2 - 1) (st.width - 1) }
  else if fin = 'J' then
    if (seqParams acc).getD 0 0 = 2 then
      { st with grid := List.replicate st.height (blankRow st.width) }
    else st
  else if fin = 'K' then
    if (seqParams acc).getD 0 0 = 0 then eraseLineRight st else st
  else st

/-- A control-sequence terminator byte. -/
def isCSIFinal (c : Char) : Bool := 64 ≤ c.toNat && c.toNat ≤ 126

/-- Modelled from the spec: one byte of the emulator state machine
(spec 4.5's transition table). -/
def step (st : EmuState) (c : Char) : EmuState :=
  match st.mode with
  | ParseMode.normal =>
    if c = '\x1b' then { st with mode := ParseMode.escStart }
    else if c = '\r' then { st with curCol := 0 }
    else if c = '\n' then cursorDown st
    else if c = '\x08' then { st with curCol := st.curCol - 1 }
    else if c.toNat < 32 then st
    else putChar st c
  | ParseMode.escStart =>
    if c = '[' then { st with mode := ParseMode.escBody [] }
    else { st with mode := ParseMode.normal }
  | ParseMode.escBody acc =>
    if isCSIFinal c then csiApply { st with mode := ParseMode.normal } acc c
    else { st with mode := ParseMode.escBody (acc ++ [c]) }

/-- Modelled from the spec: feed(bytes) consumes a chunk byte by byte, parser
state persisting across calls (spec 4.5). -/
def feed (st : EmuState) (chunk : List Char) : EmuState := chunk.foldl step st

/-- Feed a list of chunks in order, one feed call per chunk. -/
def feedAll (st : EmuState) (chunks : List (List Char)) : EmuState :=
  chunks.foldl feed st

/-- Modelled from the spec: reset() clears all cells to blank, cursor to
origin, and discards any partially-accumulated escape state (spec 4.5);
invoked by the read loop as screen.reset() at src/worker.py line 194. -/
def resetScreen (st : EmuState) : EmuState :=
  { st with grid := List.replicate st.height (blankRow st.width),
            curRow := 0, curCol := 0, mode := ParseMode.normal }

/-- A grid row as text, padded to the grid width (spec 3: the grid is a
rectangular rows-by-columns array read as a snapshot of rows as text). -/
def padRow (w : Nat) (r : List Char) : List Char :=
  r.take w ++ List.replicate (w - r.length) ' '

/-- The current grid as an ordered sequence of row strings (screen.display at
src/worker.py line 193). -/
def display (st : EmuState) : List (List Char) :=
  st.grid.map (padRow st.width)

/-- Python str whitespace, as stripped by str.strip(). -/
def isWS (c : Char) : Bool := c = ' ' || c = '\n' || c = '\t' || c = '\r'

/-- Drop leading whitespace. -/
def lstrip (s : List Char) : List Char := s.dropWhile isWS

/-- Drop trailing whitespace. -/
def rstrip (s : List Char) : List Char := (lstrip s.reverse).reverse

/-- Drop leading and trailing whitespace, as Python str.strip(). -/
def trim (s : List Char) : List Char := rstrip (lstrip s)

/-- Join rows with newline characters, as str.join at src/worker.py 193. -/
def joinNL : List (List Char) → List Char
  | [] => []
  | [r] => r
  | r :: rs => r ++ '\n' :: joinNL rs

/-- From src/worker.py line 193: the emitted frame is
"\n".join(screen.display).strip() — the rows joined by newlines with the whole
text stripped of leading and trailing whitespace. -/
def emitFrame (st : EmuState) : List Char := trim (joinNL (display st))

/-- Definition following the spec's words (spec 4.5 render(), for comparison
with the source's frame construction): the rows each trimmed of trailing
whitespace individually, then joined. -/
def specRender (st : EmuState) : List Char := joinNL ((display st).map rstrip)

/- ## Errors, extended operations, the waiter -/

/-- Error classes raised by the collaborators (spec 7 taxonomy): the
GoogleAPICallError family raised by the cloud client and by a remote-reported
operation error; the timeout error raised when the local wait on an extended
operation exceeds its deadline (a distinct class, not a GoogleAPICallError);
socket errors and SSH exceptions raised by the SSH collaborator. -/
inductive RemoteError where
  | apiCall : Nat → RemoteError
  | timeoutErr : RemoteError
  | socketError : Nat → RemoteError
  | sshException : Nat → RemoteError
  deriving DecidableEq, Repr

/-- Whether an error belongs to the GoogleAPICallError family, the sole class
caught by GoogleCloudWorker.run (src/worker.py line 34). -/
def isGoogleAPICallError : RemoteError → Bool
  | RemoteError.apiCall _ => true
  | _ => false

/-- Whether an error belongs to the (socket.error, SSHException) pair, the
classes caught by SSHWorker.run (src/worker.py line 159). -/
def isSSHCaughtError : RemoteError → Bool
  | RemoteError.socketError _ => true
  | RemoteError.sshException _ => true
  | _ => false

/-- Status of a remote extended operation (spec 3, Operation handle). -/
inductive OpStatus where
  | pending : OpStatus
  | running : OpStatus
  | opDone : OpStatus
  | opError : Nat → OpStatus
  deriving DecidableEq, Repr

/-- Whether a status is terminal (Done or Error). -/
def isTerminalStatus : OpStatus → Bool
  | OpStatus.opDone => true
  | OpStatus.opError _ => true
  | _ => false

/-- Modelled from the spec: an operation handle, read as its remote-tracked
status at each time tick (spec 3, Operation handle). -/
def OperationHandle : Type := Nat → OpStatus

/-- The terminal outcome observable on a handle at one tick, if any: normal
return on Done, the remote-reported error (a GoogleAPICallError) on Error. -/
def terminalAt (op : OperationHandle) (t : Nat) : Option (Except RemoteError Unit) :=
  match op t with
  | OpStatus.opDone => some (Except.ok ())
  | OpStatus.opError c => some (Except.error (RemoteError.apiCall c))
  | _ => none

/-- First terminal outcome among the n ticks starting at tick `start`. -/
def firstTerminalFrom (op : OperationHandle) : Nat → Nat → Option (Except RemoteError Unit)
  | _, 0 => none
  | start, n + 1 =>
    match terminalAt op start with
    | some r => some r
    | none => firstTerminalFrom op (start + 1) n

/-- Modelled from the spec: operation.result(timeout) of the cloud collaborator
— block until the handle's status becomes Done or Error or until the timeout
elapses; normal return on Done, the remote-reported error on Error, a timeout
error (not a GoogleAPICallError) on expiry (spec 4.3, spec 6, spec 7). -/
def operationResult (op : OperationHandle) (timeout : Nat) : Except RemoteError Unit :=
  (firstTerminalFrom op 0 timeout).getD (Except.error RemoteError.timeoutErr)

/-- From src/cloud.py lines 14-19: wait_for_extended_operation(operation,
timeout=300) returns operation.result(timeout=timeout). -/
def wait_for_extended_operation (op : OperationHandle) (timeout : Nat := 300) :
    Except RemoteError Unit :=
  operationResult op timeout

/- ## Worker notifications and run wrappers -/

/-- Notifications a worker can emit through its signals (src/worker.py):
the per-verb progress signal (created/started/...), the completed signal
carrying True or a fetched value, the failed signal, and the per-chunk
received signal of the read loop. -/
inductive Event where
  | progressed : Event
  | completedBool : Bool → Event
  | completedVal : Nat → Event
  | failed : RemoteError → Event
  | received : List Char → Event
  deriving DecidableEq, Repr

/-- Whether a notification is terminal (completed or failed). -/
def isTerminalEvent : Event → Bool
  | Event.completedBool _ => true
  | Event.completedVal _ => true
  | Event.failed _ => true
  | _ => false

/-- Whether a notification is a read-loop frame. -/
def isReceivedEvent : Event → Bool
  | Event.received _ => true
  | _ => false

/-- Outcome of one execution of a worker body: the notifications it emitted in
order, and the exception escaping it, if any. -/
structure WorkTrace where
  events : List Event
  exn : Option RemoteError
  deriving DecidableEq, Repr

/-- Number of terminal notifications in a trace. -/
def terminalCount (w : WorkTrace) : Nat := w.events.countP (fun e => isTerminalEvent e)

/-- From src/worker.py lines 31-35: GoogleCloudWorker.run executes work() and
catches exactly GoogleAPICallError, converting it to a failed notification;
any other exception escapes the thread uncaught. -/
def googleCloudRun (w : WorkTrace) : WorkTrace :=
  match w.exn with
  | some e =>
    if isGoogleAPICallError e then ⟨w.events ++ [Event.failed e], none⟩ else w
  | none => w

/-- From src/worker.py lines 156-160: SSHWorker.run executes work() and catches
exactly (socket.error, SSHException), converting it to a failed notification;
any other exception escapes the thread uncaught. -/
def sshRun (w : WorkTrace) : WorkTrace :=
  match w.exn with
  | some e =>
    if isSSHCaughtError e then ⟨w.events ++ [Event.failed e], none⟩ else w
  | none => w

/-- The nine mutating cloud verbs, one per worker class of src/worker.py
lines 50-137. -/
inductive MutatingVerb where
  | create | start | resume | stop | suspend | reset | delete | setTags | setMetadata
  deriving DecidableEq, Repr

/-- From src/worker.py lines 50-137: the shared body of every mutating verb
worker — call the client and obtain an operation handle (the call may raise),
emit the per-verb progress signal, wait on the operation with the default
timeout (the wait may raise), then emit completed(True).  The call's outcome is
the collaborator's response for this submission. -/
def mutatingVerbWork (call : Except RemoteError OperationHandle) : WorkTrace :=
  match call with
  | Except.error e => ⟨[], some e⟩
  | Except.ok op =>
    match wait_for_extended_operation op with
    | Except.ok _ => ⟨[Event.progressed, Event.completedBool true], none⟩
    | Except.error e => ⟨[Event.progressed], some e⟩

/-- The body run by a given mutating verb's worker, given the remote client's
response to each verb (all nine classes share the body shape). -/
def cloudVerbWork (v : MutatingVerb) (client : MutatingVerb → Except RemoteError OperationHandle) :
    WorkTrace :=
  mutatingVerbWork (client v)

/-- From src/worker.py lines 38-47: the read-only verb workers (list, get)
call the client once and emit the returned value as completed. -/
def readOnlyVerbWork (call : Except RemoteError Nat) : WorkTrace :=
  match call with
  | Except.error e => ⟨[], some e⟩
  | Except.ok v => ⟨[Event.completedVal v], none⟩

/-- From src/worker.py lines 169-171: SSHConnectWorker.work calls
ssh_client.connect(**args) then emits completed(True). -/
def sshConnectWork (call : Except RemoteError Unit) : WorkTrace :=
  match call with
  | Except.error e => ⟨[], some e⟩
  | Except.ok _ => ⟨[Event.completedBool true], none⟩

/-- Frames produced by the read loop from a given emulator state: for each
chunk, the frame rendered after feeding it, the screen being reset between
chunks (src/worker.py lines 186-194). -/
def framesOf (st : EmuState) : List (List Char) → List (List Char)
  | [] => []
  | c :: rest => emitFrame (feed st c) :: framesOf (resetScreen (feed st c)) rest

/-- From src/worker.py lines 182-196: the read-loop body from a given emulator
state — readline() yields the listed chunks then either EOF (fin = none, loop
breaks and completed(True) is emitted) or a raised transport error
(fin = some e).  Each chunk is fed, the frame is emitted as a received
notification, then the screen is reset. -/
def readLoopFrom (st : EmuState) : List (List Char) → Option RemoteError → WorkTrace
  | [], none => ⟨[Event.completedBool true], none⟩
  | [], some e => ⟨[], some e⟩
  | c :: rest, fin =>
    let w := readLoopFrom (resetScreen (feed st c)) rest fin
    ⟨Event.received (emitFrame (feed st c)) :: w.events, w.exn⟩

/-- From src/worker.py lines 182-196: SSHReadStdIOWorker.work starts from a
fresh Screen(256, 24) emulator. -/
def readLoopWork (chunks : List (List Char)) (fin : Option RemoteError) : WorkTrace :=
  readLoopFrom (emuInit 256 24) chunks fin

/- ## Connect arguments (src/window.py) -/

/-- The keyword-argument mapping passed to ssh_client.connect (src/window.py
lines 167-176). -/
structure ConnectArgs where
  hostname : List Char
  username : List Char
  password : Option (List Char)
  key_filename : Option (List Char)
  timeout : Nat
  banner_timeout : Nat
  auth_timeout : Nat
  channel_timeout : Nat
  deriving DecidableEq, Repr

/-- From src/window.py lines 146-177: the Connect submission built by
button_connect_clicked — password is the password text when the Password radio
button is checked, otherwise None; key_filename is the key text when the Key
radio button is checked, otherwise None; the four timeouts are all 5. -/
def buildConnectArgs (host user pwText keyText : List Char)
    (passwordChecked keyChecked : Bool) : ConnectArgs :=
  { hostname := host
    username := user
    password := if passwordChecked then some pwText else none
    key_filename := if keyChecked then some keyText else none
    timeout := 5
    banner_timeout := 5
    auth_timeout := 5
    channel_timeout := 5 }

/- ## The shared default client (src/cloud.py, src/worker.py, src/page.py) -/

/-- A reference to a GoogleCloudClient object: the module-level default client
created at src/cloud.py line 193, or an explicitly constructed one. -/
inductive ClientRef where
  | defaultClient : ClientRef
  | explicitClient : Nat → ClientRef
  deriving DecidableEq, Repr

/-- The mutable state of one GoogleCloudClient: its instances_client, present
once credentials are loaded (src/cloud.py lines 11-12, 21-25). -/
structure ClientState where
  credentials : Option Nat
  deriving DecidableEq, Repr

/-- The heap of client objects: the state reachable through each reference. -/
def ClientHeap : Type := ClientRef → ClientState

/-- From src/worker.py lines 18-21: GoogleCloudWorker.__init__ binds
google_cloud_client to the argument when one is given, else (no argument, or
None) to GoogleCloudClient.default_client. -/
def workerClientRef (arg : Option ClientRef) : ClientRef :=
  arg.getD ClientRef.defaultClient

/-- From src/cloud.py lines 21-25: load_credentials replaces the
instances_client of the client it is called on; src/page.py line 101 and 134
call it on GoogleCloudClient.default_client. -/
def load_credentials (heap : ClientHeap) (r : ClientRef) (creds : Nat) : ClientHeap :=
  fun r2 => if r2 = r then { credentials := some creds } else heap r2

/- ## Helper lemmas -/

/-- Feeding two chunks in sequence equals feeding their concatenation: the
parser state persists across feed calls. -/
theorem feed_append (st : EmuState) (a b : List Char) :
    feed (feed st a) b = feed st (a ++ b) :=
  (List.foldl_append step st a b).symm

/-- Feeding a list of chunks in order equals feeding the flattened byte
sequence in one call. -/
theorem feedAll_flatten (chunks : List (List Char)) :
    ∀ st : EmuState, feedAll st chunks = feed st chunks.flatten := by
  induction chunks with
  | nil => intro st; rfl
  | cons c cs ih =>
    intro st
    calc feedAll st (c :: cs) = feedAll (feed st c) cs := rfl
      _ = feed (feed st c) cs.flatten := ih (feed st c)
      _ = feed st (c ++ cs.flatten) := feed_append st c cs.flatten
      _ = feed st (c :: cs).flatten := by rw [List.flatten_cons]

/-- C1: for every byte sequence and every way of splitting it into consecutive
chunks, feeding the chunks in order to a fresh emulator, one feed call per
chunk as the read loop makes them, yields the same final render() output as
feeding the whole sequence in one call; in particular feeding "hello\r\n" then
"world" in two separate calls to a fresh width-80 emulator leaves row 0
reading "hello" and row 1 reading "world". -/
theorem C1_chunk_invariance :
    (∀ (w h : Nat) (chunks : List (List Char)),
      feedAll (emuInit w h) chunks = feed (emuInit w h) chunks.flatten)
    ∧ ((display (feedAll (emuInit 80 24) [("hello\r\n".data), ("world".data)])).map rstrip).getD 0 []
        = ("hello".data)
    ∧ ((display (feedAll (emuInit 80 24) [("hello\r\n".data), ("world".data)])).map rstrip).getD 1 []
        = ("world".data) := by
  refine ⟨fun w h chunks => feedAll_flatten chunks (emuInit w h), ?_, ?_⟩ <;> decide

/-- C8: the Connect argument mapping built by the caller carries exactly one
authentication method — password is present exactly when the key path is
absent, given the radio buttons' mutual exclusion — and the four timeouts. -/
theorem C8_connect_args (host user pwText keyText : List Char)
    (passwordChecked keyChecked : Bool)
    (hx : passwordChecked = !keyChecked) :
    (buildConnectArgs host user pwText keyText passwordChecked keyChecked).password.isSome
      = !(buildConnectArgs host user pwText keyText passwordChecked keyChecked).key_filename.isSome
    ∧ (buildConnectArgs host user pwText keyText passwordChecked keyChecked).timeout = 5
    ∧ (buildConnectArgs host user pwText keyText passwordChecked keyChecked).banner_timeout = 5
    ∧ (buildConnectArgs host user pwText keyText passwordChecked keyChecked).auth_timeout = 5
    ∧ (buildConnectArgs host user pwText keyText passwordChecked keyChecked).channel_timeout = 5 := by
  subst hx
  cases keyChecked <;> simp [buildConnectArgs]

/-- Witness for C8 at a concrete submission with password authentication
selected. -/
theorem C8_connect_args_witness :
    (buildConnectArgs ("h".data) ("u".data) ("p".data) ("k".data) true false).password.isSome
      = !(buildConnectArgs ("h".data) ("u".data) ("p".data) ("k".data) true false).key_filename.isSome
    ∧ (buildConnectArgs ("h".data) ("u".data) ("p".data) ("k".data) true false).timeout = 5
    ∧ (buildConnectArgs ("h".data) ("u".data) ("p".data) ("k".data) true false).banner_timeout = 5
    ∧ (buildConnectArgs ("h".data) ("u".data) ("p".data) ("k".data) true false).auth_timeout = 5
    ∧ (buildConnectArgs ("h".data) ("u".data) ("p".data) ("k".data) true false).channel_timeout = 5 :=
  C8_connect_args ("h".data) ("u".data) ("p".data) ("k".data) true false (by decide)

/-- C9: a cloud verb worker constructed without an explicit client argument
(or with None) binds to the module-level GoogleCloudClient.default_client, so
all such workers share that one client object, and credentials loaded through
it (as src/page.py does) are seen through every such worker's reference. -/
theorem C9_default_client :
    workerClientRef none = ClientRef.defaultClient
    ∧ (∀ (heap : ClientHeap) (creds : Nat),
        load_credentials heap ClientRef.defaultClient creds (workerClientRef none)
          = { credentials := some creds }) := by
  refine ⟨rfl, fun heap creds => ?_⟩
  simp [workerClientRef, load_credentials]

/-- A nonterminal status observed at a tick yields no terminal outcome. -/
theorem terminalAt_none_of (op : OperationHandle) (t : Nat)
    (h : isTerminalStatus (op t) = false) : terminalAt op t = none := by
  unfold terminalAt
  cases hs : op t <;> simp [isTerminalStatus, hs] at h ⊢

/-- Scanning a window of wholly nonterminal ticks yields no outcome. -/
theorem firstTerminalFrom_none (op : OperationHandle) :
    ∀ (n start : Nat), (∀ u, u < n → isTerminalStatus (op (start + u)) = false) →
      firstTerminalFrom op start n = none := by
  intro n
  induction n with
  | zero => intro start h; rfl
  | succ m ih =>
    intro start h
    have h0 : isTerminalStatus (op start) = false := by
      have hh := h 0 (Nat.succ_pos m)
      simpa using hh
    unfold firstTerminalFrom
    rw [terminalAt_none_of op start h0]
    exact ih (start + 1) (fun u hu => by
      have hh := h (u + 1) (Nat.succ_lt_succ hu)
      have he : start + (u + 1) = start + 1 + u := by omega
      rw [he] at hh
      exact hh)

/-- The scan returns the outcome of the first terminal tick in its window. -/
theorem firstTerminalFrom_found (op : OperationHandle) :
    ∀ (n start t : Nat) (r : Except RemoteError Unit), start ≤ t → t < start + n →
      terminalAt op t = some r →
      (∀ s, start ≤ s → s < t → isTerminalStatus (op s) = false) →
      firstTerminalFrom op start n = some r := by
  intro n
  induction n with
  | zero => intro start t r h1 h2 _ _; omega
  | succ m ih =>
    intro start t r h1 h2 ht hpre
    unfold firstTerminalFrom
    rcases Nat.eq_or_lt_of_le h1 with heq | hlt
    · rw [← heq] at ht
      rw [ht]
    · have h0 : isTerminalStatus (op start) = false := hpre start (Nat.le_refl start) hlt
      rw [terminalAt_none_of op start h0]
      exact ih (start + 1) t r hlt (by omega) ht
        (fun s hs1 hs2 => hpre s (by omega) hs2)

/-- A successful scan exhibits a Done tick inside the window. -/
theorem firstTerminalFrom_ok (op : OperationHandle) :
    ∀ (n start : Nat), firstTerminalFrom op start n = some (Except.ok ()) →
      ∃ t, start ≤ t ∧ t < start + n ∧ op t = OpStatus.opDone := by
  intro n
  induction n with
  | zero => intro start h; exact absurd h (by simp [firstTerminalFrom])
  | succ m ih =>
    intro start h
    unfold firstTerminalFrom at h
    cases hs : terminalAt op start with
    | some r =>
      rw [hs] at h
      have hr : r = Except.ok () := by
        simpa using h
      subst hr
      unfold terminalAt at hs
      cases hos : op start <;> rw [hos] at hs <;> simp at hs
      exact ⟨start, Nat.le_refl start, by omega, hos⟩
    | none =>
      rw [hs] at h
      obtain ⟨t, ht1, ht2, ht3⟩ := ih (start + 1) h
      exact ⟨t, by omega, by omega, ht3⟩

/-- C5: wait(handle, timeout) defaults the timeout to 300 time units, returns
normally exactly when the handle reaches Done within the window, raises the
timeout error when the handle is never terminal within the window, and raises
the remote-reported error when the handle first reaches Error — never
returning normally in that case. -/
theorem C5_waiter_contract :
    (∀ op : OperationHandle,
      wait_for_extended_operation op = wait_for_extended_operation op 300)
    ∧ (∀ (op : OperationHandle) (timeout : Nat),
        (∀ t, t < timeout → isTerminalStatus (op t) = false) →
        wait_for_extended_operation op timeout = Except.error RemoteError.timeoutErr)
    ∧ (∀ (op : OperationHandle) (timeout t : Nat),
        t < timeout → op t = OpStatus.opDone →
        (∀ s, s < t → isTerminalStatus (op s) = false) →
        wait_for_extended_operation op timeout = Except.ok ())
    ∧ (∀ (op : OperationHandle) (timeout t c : Nat),
        t < timeout → op t = OpStatus.opError c →
        (∀ s, s < t → isTerminalStatus (op s) = false) →
        wait_for_extended_operation op timeout
          = Except.error (RemoteError.apiCall c))
    ∧ (∀ (op : OperationHandle) (timeout : Nat),
        wait_for_extended_operation op timeout = Except.ok () →
        ∃ t, t < timeout ∧ op t = OpStatus.opDone) := by
  refine ⟨fun op => rfl, ?_, ?_, ?_, ?_⟩
  · intro op timeout h
    unfold wait_for_extended_operation operationResult
    rw [firstTerminalFrom_none op timeout 0 (fun u hu => by simpa using h u hu)]
    rfl
  · intro op timeout t hlt hdone hpre
    unfold wait_for_extended_operation operationResult
    rw [firstTerminalFrom_found op timeout 0 t (Except.ok ()) (Nat.zero_le t)
      (by omega) (by unfold terminalAt; rw [hdone]) (fun s _ hs => hpre s hs)]
    rfl
  · intro op timeout t c hlt herr hpre
    unfold wait_for_extended_operation operationResult
    rw [firstTerminalFrom_found op timeout 0 t
      (Except.error (RemoteError.apiCall c)) (Nat.zero_le t)
      (by omega) (by unfold terminalAt; rw [herr]) (fun s _ hs => hpre s hs)]
    rfl
  · intro op timeout h
    unfold wait_for_extended_operation operationResult at h
    cases hs : firstTerminalFrom op 0 timeout with
    | none => rw [hs] at h; exact absurd h (by simp)
    | some r =>
      rw [hs] at h
      have hr : r = Except.ok () := by simpa using h
      subst hr
      obtain ⟨t, _, ht2, ht3⟩ := firstTerminalFrom_ok op timeout 0 hs
      exact ⟨t, by omega, ht3⟩

/-- Witness for C5: a handle Done from tick 2 with a 10-tick window returns
normally; a handle never terminal times out with a 1-tick window; a handle in
Error from tick 0 raises the remote-reported error. -/
theorem C5_waiter_contract_witness :
    wait_for_extended_operation (fun t => if t < 2 then OpStatus.pending else OpStatus.opDone) 10
      = Except.ok ()
    ∧ wait_for_extended_operation (fun _ => OpStatus.pending) 1
      = Except.error RemoteError.timeoutErr
    ∧ wait_for_extended_operation (fun _ => OpStatus.opError 7) 5
      = Except.error (RemoteError.apiCall 7) :=
  ⟨C5_waiter_contract.2.2.1 (fun t => if t < 2 then OpStatus.pending else OpStatus.opDone)
      10 2 (by decide) (by decide) (by decide),
   C5_waiter_contract.2.1 (fun _ => OpStatus.pending) 1 (by decide),
   C5_waiter_contract.2.2.2.1 (fun _ => OpStatus.opError 7) 5 0 7 (by decide) (by decide)
      (by intro s hs; omega)⟩

/-- Full run characterization of a mutating verb worker whose initiating call
returned a handle: the emitted trace is decided by the waiter's outcome and
by whether the escaping error belongs to the caught GoogleAPICallError class. -/
theorem run_mutating_ok (op : OperationHandle) :
    googleCloudRun (mutatingVerbWork (Except.ok op)) =
      match operationResult op 300 with
      | Except.ok _ => ⟨[Event.progressed, Event.completedBool true], none⟩
      | Except.error e =>
        if isGoogleAPICallError e then ⟨[Event.progressed, Event.failed e], none⟩
        else ⟨[Event.progressed], some e⟩ := by
  have h1 : mutatingVerbWork (Except.ok op) =
      match operationResult op 300 with
      | Except.ok _ => ⟨[Event.progressed, Event.completedBool true], none⟩
      | Except.error e => ⟨[Event.progressed], some e⟩ := rfl
  rw [h1]
  cases hw : operationResult op 300 with
  | ok u => rfl
  | error e => cases e <;> rfl

/-- Run characterization of a mutating verb worker whose initiating call
raised: the error is converted to a failed notification exactly when it is a
GoogleAPICallError, and escapes otherwise. -/
theorem run_mutating_error (e : RemoteError) :
    googleCloudRun (mutatingVerbWork (Except.error e)) =
      if isGoogleAPICallError e then ⟨[Event.failed e], none⟩
      else ⟨[], some e⟩ := by
  cases e <;> rfl

/-- C2 counterexample: a start-instance task whose handle never resolves.  The
waiter times out, yet the run emits no failure notification at all — the only
emitted notification is the progress signal, and the timeout error escapes the
task uncaught (the except clause at src/worker.py line 34 names only
GoogleAPICallError, and the timeout error is not of that class). -/
theorem C2_counterexample :
    (googleCloudRun (cloudVerbWork MutatingVerb.start
        (fun _ => Except.ok (fun _ => OpStatus.pending)))).events
      = [Event.progressed]
    ∧ ((googleCloudRun (cloudVerbWork MutatingVerb.start
        (fun _ => Except.ok (fun _ => OpStatus.pending)))).events.all
        (fun ev => !isTerminalEvent ev)) = true
    ∧ (googleCloudRun (cloudVerbWork MutatingVerb.start
        (fun _ => Except.ok (fun _ => OpStatus.pending)))).exn
      = some RemoteError.timeoutErr := by
  refine ⟨?_, ?_, ?_⟩ <;> decide

/-- C2 as amended: for every mutating cloud verb task, when the waiter reports
a remote operation error (a GoogleAPICallError) the task emits the progress
signal then a failure notification carrying that error; when the waiter times
out, the timeout error is outside the caught class, so no failure notification
is emitted and the error escapes the task uncaught. -/
theorem C2_waiter_failure (v : MutatingVerb)
    (client : MutatingVerb → Except RemoteError OperationHandle)
    (op : OperationHandle) (c : Nat)
    (hcall : client v = Except.ok op) :
    (operationResult op 300 = Except.error (RemoteError.apiCall c) →
      googleCloudRun (cloudVerbWork v client)
        = ⟨[Event.progressed, Event.failed (RemoteError.apiCall c)], none⟩)
    ∧ (operationResult op 300 = Except.error RemoteError.timeoutErr →
      googleCloudRun (cloudVerbWork v client)
        = ⟨[Event.progressed], some RemoteError.timeoutErr⟩) := by
  constructor <;> intro hw <;>
    simp [cloudVerbWork, hcall, run_mutating_ok, hw, isGoogleAPICallError]

/-- Witness for C2 at two concrete tasks: a handle in Error from tick 0 and a
handle that never resolves. -/
theorem C2_waiter_failure_witness :
    googleCloudRun (cloudVerbWork MutatingVerb.resume
        (fun _ => Except.ok (fun _ => OpStatus.opError 5)))
      = ⟨[Event.progressed, Event.failed (RemoteError.apiCall 5)], none⟩
    ∧ googleCloudRun (cloudVerbWork MutatingVerb.stop
        (fun _ => Except.ok (fun _ => OpStatus.running)))
      = ⟨[Event.progressed], some RemoteError.timeoutErr⟩ :=
  ⟨(C2_waiter_failure MutatingVerb.resume
      (fun _ => Except.ok (fun _ => OpStatus.opError 5))
      (fun _ => OpStatus.opError 5) 5 rfl).1 (by rfl),
   (C2_waiter_failure MutatingVerb.stop
      (fun _ => Except.ok (fun _ => OpStatus.running))
      (fun _ => OpStatus.running) 0 rfl).2 (by rfl)⟩

/-- C4: for every mutating cloud verb, a successful run emits the submitted
progress signal and then the success result, in that order; and when the
initiating remote call itself fails (with a GoogleAPICallError, the class the
cloud collaborator raises), the task emits only a failure notification — the
progress signal is never emitted. -/
theorem C4_submitted_order (v : MutatingVerb)
    (client : MutatingVerb → Except RemoteError OperationHandle)
    (op : OperationHandle) (e : RemoteError) :
    (client v = Except.ok op → operationResult op 300 = Except.ok () →
      googleCloudRun (cloudVerbWork v client)
        = ⟨[Event.progressed, Event.completedBool true], none⟩)
    ∧ (client v = Except.error e → isGoogleAPICallError e = true →
      googleCloudRun (cloudVerbWork v client) = ⟨[Event.failed e], none⟩) := by
  constructor
  · intro hcall hw
    simp [cloudVerbWork, hcall, run_mutating_ok, hw]
  · intro hcall he
    simp [cloudVerbWork, hcall, run_mutating_error, he]

/-- Witness for C4 at two concrete tasks: a call returning a handle Done from
tick 0, and a call that itself raises a GoogleAPICallError. -/
theorem C4_submitted_order_witness :
    googleCloudRun (cloudVerbWork MutatingVerb.create
        (fun _ => Except.ok (fun _ => OpStatus.opDone)))
      = ⟨[Event.progressed, Event.completedBool true], none⟩
    ∧ googleCloudRun (cloudVerbWork MutatingVerb.setTags
        (fun _ => Except.error (RemoteError.apiCall 3)))
      = ⟨[Event.failed (RemoteError.apiCall 3)], none⟩ :=
  ⟨(C4_submitted_order MutatingVerb.create
      (fun _ => Except.ok (fun _ => OpStatus.opDone))
      (fun _ => OpStatus.opDone) RemoteError.timeoutErr).1 rfl (by rfl),
   (C4_submitted_order MutatingVerb.setTags
      (fun _ => Except.error (RemoteError.apiCall 3))
      (fun _ => OpStatus.opDone) (RemoteError.apiCall 3)).2 rfl (by rfl)⟩

/-- The read loop's trace from any emulator state: the frames of the chunks in
order as received notifications, followed by completed(True) on EOF; a raised
transport error becomes the escaping exception. -/
theorem readLoopFrom_eq (chunks : List (List Char)) :
    ∀ (st : EmuState) (fin : Option RemoteError),
      readLoopFrom st chunks fin =
        ⟨(framesOf st chunks).map Event.received ++
          (match fin with
           | none => [Event.completedBool true]
           | some _ => []),
         fin⟩ := by
  induction chunks with
  | nil =>
    intro st fin
    cases fin <;> rfl
  | cons c cs ih =>
    intro st fin
    have h1 : readLoopFrom st (c :: cs) fin =
        ⟨Event.received (emitFrame (feed st c))
            :: (readLoopFrom (resetScreen (feed st c)) cs fin).events,
          (readLoopFrom (resetScreen (feed st c)) cs fin).exn⟩ := rfl
    rw [h1, ih (resetScreen (feed st c)) fin]
    simp [framesOf]

/-- The read loop emits one frame per chunk: its frame list has the chunks'
length. -/
theorem framesOf_length (chunks : List (List Char)) :
    ∀ st : EmuState, (framesOf st chunks).length = chunks.length := by
  induction chunks with
  | nil => intro st; rfl
  | cons c cs ih => intro st; simp [framesOf, ih]

/-- Frames are progress notifications, not terminal ones. -/
theorem countP_received_terminal (fr : List (List Char)) :
    (fr.map Event.received).countP (fun e => isTerminalEvent e) = 0 := by
  induction fr with
  | nil => rfl
  | cons f fs ih => simp [List.countP_cons, isTerminalEvent, ih]

/-- Full run characterization of the read-loop worker: frames in chunk order,
then completed(True) on EOF, a failed notification on a caught transport
error, and an escaping exception on an uncaught one. -/
theorem run_readLoop_eq (chunks : List (List Char)) (fin : Option RemoteError) :
    sshRun (readLoopWork chunks fin) =
      ⟨(framesOf (emuInit 256 24) chunks).map Event.received ++
        (match fin with
         | none => [Event.completedBool true]
         | some e => if isSSHCaughtError e then [Event.failed e] else []),
       match fin with
       | none => none
       | some e => if isSSHCaughtError e then none else some e⟩ := by
  rw [readLoopWork, readLoopFrom_eq]
  cases fin with
  | none => rfl
  | some e => cases he : isSSHCaughtError e <;> simp [sshRun, he]

/-- C3 counterexample: a delete-instance task whose handle stays Running for
the whole wait window.  Zero terminal notifications fire — neither completed
nor failed — and the timeout error escapes the task, refuting the
exactly-one-terminal-notification claim for this collaborator outcome. -/
theorem C3_counterexample :
    terminalCount (googleCloudRun (cloudVerbWork MutatingVerb.delete
        (fun _ => Except.ok (fun _ => OpStatus.running)))) = 0
    ∧ (googleCloudRun (cloudVerbWork MutatingVerb.delete
        (fun _ => Except.ok (fun _ => OpStatus.running)))).exn
      = some RemoteError.timeoutErr := by
  constructor <;> decide

/-- C3 as amended: for every task submission, the emitted trace is fully
determined by the collaborator outcomes — on a normal outcome the completed
notification fires exactly once; on a raised error of the worker's caught
classes (GoogleAPICallError for cloud workers, socket.error/SSHException for
SSH workers) the failed notification fires exactly once and carries the error;
an error outside the caught classes (the waiter's timeout error) escapes the
task uncaught with zero terminal notifications. -/
theorem C3_terminal_notifications :
    (∀ call : Except RemoteError OperationHandle,
      googleCloudRun (mutatingVerbWork call) =
        match call with
        | Except.error e =>
          if isGoogleAPICallError e then ⟨[Event.failed e], none⟩ else ⟨[], some e⟩
        | Except.ok op =>
          match operationResult op 300 with
          | Except.ok _ => ⟨[Event.progressed, Event.completedBool true], none⟩
          | Except.error e =>
            if isGoogleAPICallError e then ⟨[Event.progressed, Event.failed e], none⟩
            else ⟨[Event.progressed], some e⟩)
    ∧ (∀ call : Except RemoteError Nat,
      googleCloudRun (readOnlyVerbWork call) =
        match call with
        | Except.error e =>
          if isGoogleAPICallError e then ⟨[Event.failed e], none⟩ else ⟨[], some e⟩
        | Except.ok v => ⟨[Event.completedVal v], none⟩)
    ∧ (∀ call : Except RemoteError Unit,
      sshRun (sshConnectWork call) =
        match call with
        | Except.error e =>
          if isSSHCaughtError e then ⟨[Event.failed e], none⟩ else ⟨[], some e⟩
        | Except.ok _ => ⟨[Event.completedBool true], none⟩)
    ∧ (∀ (chunks : List (List Char)) (fin : Option RemoteError),
      sshRun (readLoopWork chunks fin) =
        ⟨(framesOf (emuInit 256 24) chunks).map Event.received ++
          (match fin with
           | none => [Event.completedBool true]
           | some e => if isSSHCaughtError e then [Event.failed e] else []),
         match fin with
         | none => none
         | some e => if isSSHCaughtError e then none else some e⟩)
    ∧ (∀ call : Except RemoteError OperationHandle,
      terminalCount (googleCloudRun (mutatingVerbWork call))
        = if (googleCloudRun (mutatingVerbWork call)).exn.isSome then 0 else 1)
    ∧ (∀ (chunks : List (List Char)) (fin : Option RemoteError),
      terminalCount (sshRun (readLoopWork chunks fin))
        = if (sshRun (readLoopWork chunks fin)).exn.isSome then 0 else 1) := by
  refine ⟨?_, ?_, ?_, ?_, ?_, ?_⟩
  · intro call
    cases call with
    | error e => exact run_mutating_error e
    | ok op => exact run_mutating_ok op
  · intro call
    cases call with
    | error e => cases e <;> rfl
    | ok v => rfl
  · intro call
    cases call with
    | error e => cases e <;> rfl
    | ok u => rfl
  · intro chunks fin
    exact run_readLoop_eq chunks fin
  · intro call
    cases call with
    | error e =>
      rw [run_mutating_error e]
      cases he : isGoogleAPICallError e <;>
        simp [he, terminalCount, List.countP_cons, isTerminalEvent]
    | ok op =>
      rw [run_mutating_ok op]
      cases hw : operationResult op 300 with
      | ok u => simp [terminalCount, List.countP_cons, isTerminalEvent]
      | error e =>
        cases he : isGoogleAPICallError e <;>
          simp [he, terminalCount, List.countP_cons, isTerminalEvent]
  · intro chunks fin
    rw [run_readLoop_eq chunks fin]
    cases fin with
    | none =>
      simp [terminalCount, List.countP_append, countP_received_terminal,
        List.countP_cons, isTerminalEvent]
    | some e =>
      cases he : isSSHCaughtError e <;>
        simp [he, terminalCount, List.countP_append, countP_received_terminal,
          List.countP_cons, isTerminalEvent]

/-- C7: in every execution of the SSH read loop — terminated by EOF or by a
raised transport error — exactly one frame notification is emitted per chunk
read, and the emitted frame notifications are exactly the chunks' frames in
read order; when the stream yields EOF they are followed by the normal
completion notification, which is the last notification of the loop. -/
theorem C7_read_loop_order :
    (∀ (chunks : List (List Char)) (fin : Option RemoteError),
      readLoopWork chunks fin =
        ⟨(framesOf (emuInit 256 24) chunks).map Event.received ++
          (match fin with
           | none => [Event.completedBool true]
           | some _ => []),
         fin⟩)
    ∧ (∀ (chunks : List (List Char)) (fin : Option RemoteError),
      (readLoopWork chunks fin).events.countP (fun e => isReceivedEvent e)
        = chunks.length)
    ∧ (∀ chunks : List (List Char),
      (readLoopWork chunks none).events.getLast?
        = some (Event.completedBool true)) := by
  refine ⟨?_, ?_, ?_⟩
  · intro chunks fin
    exact readLoopFrom_eq chunks (emuInit 256 24) fin
  · intro chunks fin
    rw [readLoopWork, readLoopFrom_eq]
    have hfr : ((framesOf (emuInit 256 24) chunks).map Event.received).countP
        (fun e => isReceivedEvent e) = chunks.length := by
      rw [List.countP_eq_length.mpr, List.length_map, framesOf_length]
      intro a ha
      obtain ⟨f, _, hf⟩ := List.mem_map.mp ha
      rw [← hf]
      rfl
    cases fin <;> rw [List.countP_append, hfr] <;>
      simp [List.countP_cons, isReceivedEvent]
  · intro chunks
    rw [readLoopWork, readLoopFrom_eq]
    exact List.getLast?_concat _

/-- Moving the cursor down never changes the grid width. -/
theorem cursorDown_width (st : EmuState) : (cursorDown st).width = st.width := by
  unfold cursorDown
  split <;> rfl

/-- Moving the cursor down never changes the grid height. -/
theorem cursorDown_height (st : EmuState) : (cursorDown st).height = st.height := by
  unfold cursorDown
  split <;> rfl

/-- Writing a printable character never changes the grid width. -/
theorem putChar_width (st : EmuState) (c : Char) : (putChar st c).width = st.width := by
  unfold putChar
  split
  · rfl
  · exact cursorDown_width _

/-- Writing a printable character never changes the grid height. -/
theorem putChar_height (st : EmuState) (c : Char) : (putChar st c).height = st.height := by
  unfold putChar
  split
  · rfl
  · exact cursorDown_height _

/-- Applying a control sequence never changes the grid width. -/
theorem csiApply_width (st : EmuState) (acc : List Char) (f : Char) :
    (csiApply st acc f).width = st.width := by
  unfold csiApply eraseLineRight
  split_ifs <;> rfl

/-- Applying a control sequence never changes the grid height. -/
theorem csiApply_height (st : EmuState) (acc : List Char) (f : Char) :
    (csiApply st acc f).height = st.height := by
  unfold csiApply eraseLineRight
  split_ifs <;> rfl

/-- One emulator step never changes the grid width. -/
theorem step_width (st : EmuState) (c : Char) : (step st c).width = st.width := by
  obtain ⟨w2, h2, g2, r2, c2, m⟩ := st
  cases m <;> simp only [step] <;> split_ifs <;>
    first
      | rfl
      | exact cursorDown_width _
      | exact putChar_width _ c
      | exact csiApply_width _ _ c

/-- One emulator step never changes the grid height. -/
theorem step_height (st : EmuState) (c : Char) : (step st c).height = st.height := by
  obtain ⟨w2, h2, g2, r2, c2, m⟩ := st
  cases m <;> simp only [step] <;> split_ifs <;>
    first
      | rfl
      | exact cursorDown_height _
      | exact putChar_height _ c
      | exact csiApply_height _ _ c

/-- One emulator step never changes the grid dimensions. -/
theorem step_dims (st : EmuState) (c : Char) :
    (step st c).width = st.width ∧ (step st c).height = st.height :=
  ⟨step_width st c, step_height st c⟩

/-- Feeding a chunk never changes the grid dimensions. -/
theorem feed_dims (chunk : List Char) :
    ∀ st : EmuState, (feed st chunk).width = st.width
      ∧ (feed st chunk).height = st.height := by
  induction chunk with
  | nil => intro st; exact ⟨rfl, rfl⟩
  | cons c cs ih =>
    intro st
    have h1 : feed st (c :: cs) = feed (step st c) cs := rfl
    rw [h1]
    obtain ⟨hw, hh⟩ := ih (step st c)
    obtain ⟨hw2, hh2⟩ := step_dims st c
    exact ⟨hw.trans hw2, hh.trans hh2⟩

/-- Resetting the screen restores the fresh all-blank emulator of the same
dimensions: blank grid, cursor at origin, no partially-accumulated escape
state. -/
theorem resetScreen_eq (st : EmuState) :
    resetScreen st = emuInit st.width st.height := rfl

/-- Resetting after feeding a chunk to a fresh emulator yields that same fresh
emulator again. -/
theorem reset_feed (c : List Char) (w h : Nat) :
    resetScreen (feed (emuInit w h) c) = emuInit w h := by
  rw [resetScreen_eq]
  obtain ⟨hw, hh⟩ := feed_dims c (emuInit w h)
  rw [hw, hh]
  rfl

/-- C10: in the SSH read loop the screen is reset to the all-blank state with
cursor at origin immediately after each frame is emitted, so every emitted
frame is the render of the single most recently read chunk applied to a fresh
emulator — no terminal content carries over from one frame to the next. -/
theorem C10_frames_fresh :
    (∀ st : EmuState, resetScreen st = emuInit st.width st.height)
    ∧ (∀ chunks : List (List Char),
      framesOf (emuInit 256 24) chunks
        = chunks.map (fun c => emitFrame (feed (emuInit 256 24) c)))
    ∧ (∀ chunks : List (List Char),
      (readLoopWork chunks none).events
        = chunks.map (fun c => Event.received (emitFrame (feed (emuInit 256 24) c)))
          ++ [Event.completedBool true]) := by
  have hframes : ∀ chunks : List (List Char),
      framesOf (emuInit 256 24) chunks
        = chunks.map (fun c => emitFrame (feed (emuInit 256 24) c)) := by
    intro chunks
    induction chunks with
    | nil => rfl
    | cons c cs ih =>
      have h1 : framesOf (emuInit 256 24) (c :: cs)
          = emitFrame (feed (emuInit 256 24) c)
            :: framesOf (resetScreen (feed (emuInit 256 24) c)) cs := rfl
      rw [h1, reset_feed, ih, List.map_cons]
  refine ⟨fun st => resetScreen_eq st, hframes, fun chunks => ?_⟩
  rw [readLoopWork, readLoopFrom_eq, hframes, List.map_map]
  rfl

/-- The characters stripped from the front are all whitespace. -/
theorem takeWhile_all_ws (s : List Char) : (s.takeWhile isWS).all isWS = true := by
  rw [List.all_eq_true]
  intro a ha
  exact List.mem_takeWhile_imp ha

/-- Left-strip decomposition: the input is whitespace followed by its
left-stripped form. -/
theorem lstrip_decomp (s : List Char) :
    ∃ a, s = a ++ lstrip s ∧ a.all isWS = true :=
  ⟨s.takeWhile isWS, (List.takeWhile_append_dropWhile isWS s).symm, takeWhile_all_ws s⟩

/-- Right-strip decomposition: the input is its right-stripped form followed by
whitespace. -/
theorem rstrip_decomp (s : List Char) :
    ∃ b, s = rstrip s ++ b ∧ b.all isWS = true := by
  refine ⟨(s.reverse.takeWhile isWS).reverse, ?_, ?_⟩
  · have h := congrArg List.reverse (List.takeWhile_append_dropWhile isWS s.reverse)
    rw [List.reverse_append, List.reverse_reverse] at h
    exact h.symm
  · rw [List.all_reverse]
    exact takeWhile_all_ws s.reverse

/-- Strip decomposition: the input is whitespace, the stripped text, then
whitespace. -/
theorem trim_decomp (s : List Char) :
    ∃ a b, s = a ++ trim s ++ b ∧ a.all isWS = true ∧ b.all isWS = true := by
  obtain ⟨a, ha, hA⟩ := lstrip_decomp s
  obtain ⟨b, hb, hB⟩ := rstrip_decomp (lstrip s)
  refine ⟨a, b, ?_, hA, hB⟩
  conv_lhs => rw [ha, hb]
  rw [List.append_assoc, trim]

/-- The left-stripped form starts with a non-whitespace character when it is
nonempty. -/
theorem lstrip_headD (s : List Char) :
    lstrip s ≠ [] → isWS ((lstrip s).headD ' ') = false := by
  induction s with
  | nil => intro h; exact absurd rfl h
  | cons c cs ih =>
    intro hne
    rw [lstrip, List.dropWhile_cons] at hne ⊢
    by_cases h : isWS c
    · rw [if_pos h] at hne ⊢
      exact ih hne
    · rw [if_neg h] at hne ⊢
      simpa using h

/-- The stripped text starts with a non-whitespace character when nonempty. -/
theorem trim_headD (s : List Char) :
    trim s ≠ [] → isWS ((trim s).headD ' ') = false := by
  intro hne
  obtain ⟨b, hb, _⟩ := rstrip_decomp (lstrip s)
  have htr : trim s = rstrip (lstrip s) := rfl
  cases hts : trim s with
  | nil => exact absurd hts hne
  | cons x xs =>
    rw [htr] at hts
    have hls : lstrip s = x :: (xs ++ b) := by
      rw [hb, hts]
      rfl
    have h1 := lstrip_headD s (by rw [hls]; simp)
    rw [hls] at h1
    simpa using h1

/-- The stripped text ends with a non-whitespace character when nonempty. -/
theorem trim_lastD (s : List Char) :
    trim s ≠ [] → isWS ((trim s).reverse.headD ' ') = false := by
  intro hne
  have htr : (trim s).reverse = lstrip ((lstrip s).reverse) := by
    show (rstrip (lstrip s)).reverse = lstrip ((lstrip s).reverse)
    rw [rstrip, List.reverse_reverse]
  rw [htr]
  apply lstrip_headD
  intro hempty
  apply hne
  have h2 : (trim s).reverse = [] := by rw [htr, hempty]
  simpa using h2

/-- C6 counterexample: at the reachable grid state holding "hi" on row 0 and
"yo" on row 1 of a 5-by-2 screen, the frame the code emits keeps row 0's
trailing padding (join first, strip the whole), so it differs from the rows
individually trimmed of trailing whitespace and joined. -/
theorem C6_counterexample :
    specRender (feed (emuInit 5 2) ("hi\r\nyo".data))
      ≠ emitFrame (feed (emuInit 5 2) ("hi\r\nyo".data)) := by
  decide

/-- C6 as amended: the rendered frame equals the grid's rows padded to the
grid width, joined by newlines, with leading and trailing whitespace stripped
from the joined text as a whole — interior rows keep their trailing padding;
when nonempty it begins and ends with non-whitespace; and it is a function of
the grid and width alone, so producing it does not mutate the emulator state
and rendering twice gives equal output. -/
theorem C6_render_strip :
    (∀ st : EmuState, ∃ a b, joinNL (display st) = a ++ emitFrame st ++ b
        ∧ a.all isWS = true ∧ b.all isWS = true)
    ∧ (∀ st : EmuState, emitFrame st ≠ [] →
        isWS ((emitFrame st).headD ' ') = false
        ∧ isWS ((emitFrame st).reverse.headD ' ') = false)
    ∧ (∀ st st2 : EmuState, st.grid = st2.grid → st.width = st2.width →
        emitFrame st = emitFrame st2) := by
  refine ⟨fun st => trim_decomp (joinNL (display st)),
    fun st hne => ⟨trim_headD _ hne, trim_lastD _ hne⟩,
    fun st st2 hg hw => ?_⟩
  rw [emitFrame, emitFrame, display, display, hg, hw]

/-- Witness for C6 at the concrete "hi"/"yo" state: the emitted frame sits
inside the joined rows between whitespace margins, begins and ends with
non-whitespace, and coincides with the frame of a state differing only in
cursor position. -/
theorem C6_render_strip_witness :
    (∃ a b, joinNL (display (feed (emuInit 5 2) ("hi\r\nyo".data)))
        = a ++ emitFrame (feed (emuInit 5 2) ("hi\r\nyo".data)) ++ b
        ∧ a.all isWS = true ∧ b.all isWS = true)
    ∧ (isWS ((emitFrame (feed (emuInit 5 2) ("hi\r\nyo".data))).headD ' ') = false
      ∧ isWS ((emitFrame (feed (emuInit 5 2) ("hi\r\nyo".data))).reverse.headD ' ') = false)
    ∧ emitFrame (feed (emuInit 5 2) ("hi\r\nyo".data))
        = emitFrame { feed (emuInit 5 2) ("hi\r\nyo".data) with curCol := 0 } :=
  ⟨C6_render_strip.1 (feed (emuInit 5 2) ("hi\r\nyo".data)),
   C6_render_strip.2.1 (feed (emuInit 5 2) ("hi\r\nyo".data)) (by decide),
   C6_render_strip.2.2 (feed (emuInit 5 2) ("hi\r\nyo".data))
     { feed (emuInit 5 2) ("hi\r\nyo".data) with curCol := 0 } rfl rfl⟩
